import Mathlib

/-!
Shallow embedding of the metrics package of the shipwright build controller
(source file `pkg/metrics/metrics.go`): the prometheus instrument registry
state, owner chain resolution, and the metrics service publisher, together
with proofs of the specification claims.

Cluster object store reads are modelled as lookups in a list of objects keyed
by API version, kind, namespace and name; the unbounded recursion of
`findFinalOwnerRef` is modelled with explicit fuel, where running out of fuel
represents divergence of the Go recursion. Store writes in
`createOrUpdateService` are modelled by an oracle client describing what the
store answers to the create, get, and update calls, and every function also
returns the trace of store operations it performed.
-/

namespace ShipwrightMetrics

/-- Label name constant `BuildStrategyLabel` from the source. -/
def BuildStrategyLabel : String := "buildstrategy"

/-- Label name constant `NamespaceLabel` from the source. -/
def NamespaceLabel : String := "namespace"

/-- Label name constant `BuildLabel` from the source. -/
def BuildLabel : String := "build"

/-- Label name constant `BuildRunLabel` from the source. -/
def BuildRunLabel : String := "buildrun"

/-- Controller name constant `BuildControllerName` from the source. -/
def BuildControllerName : String := "shipwright-build-controller"

/-- Name of the environment variable holding the current pod name. -/
def PodNameEnvVar : String := "POD_NAME"

/-- A kubernetes owner reference: API version, kind, name, and the two boolean
flags. The Go type has `Controller` and `BlockOwnerDeletion` as nullable
booleans; a nil pointer behaves as `false`, so both are plain `Bool` here. -/
structure OwnerReference where
  apiVersion : String
  kind : String
  name : String
  controller : Bool
  blockOwnerDeletion : Bool
  deriving DecidableEq, Repr

/-- A cluster object as far as this package reads it: type metadata, name,
namespace (field `ns`), and its list of owner references. -/
structure K8sObject where
  apiVersion : String
  kind : String
  name : String
  ns : String
  ownerReferences : List OwnerReference
  deriving DecidableEq, Repr

/-- `types.NamespacedName`: namespace (field `ns`) and name of an object. -/
structure NamespacedName where
  ns : String
  name : String
  deriving DecidableEq, Repr

/-- A get against the cluster object store: the first stored object matching
the requested API version, kind, namespace and name, or `none` (not found). -/
def fetch (store : List K8sObject) (apiVersion kind : String)
    (key : NamespacedName) : Option K8sObject :=
  store.find? fun o =>
    o.apiVersion == apiVersion && o.kind == kind &&
    o.ns == key.ns && o.name == key.name

/-- `metav1.GetControllerOf`: the first owner reference whose controller flag
is set, if any. -/
def getControllerOf (refs : List OwnerReference) : Option OwnerReference :=
  refs.find? fun r => r.controller

/-- `metav1.NewControllerRef(owner, gvk)`: a controller owner reference to the
given object, with both flags set to true. -/
def newControllerRef (o : K8sObject) : OwnerReference :=
  { apiVersion := o.apiVersion, kind := o.kind, name := o.name,
    controller := true, blockOwnerDeletion := true }

/-- Outcome of `findFinalOwnerRef`: a returned reference (`ok`, carrying
`none` exactly when the input reference was nil), a failed store get
(`fetchErr`, with the key that was not found), or exhaustion of the fuel that
models the unbounded Go recursion (`outOfFuel`). -/
inductive ResolveResult where
  | ok : Option OwnerReference → ResolveResult
  | fetchErr : NamespacedName → ResolveResult
  | outOfFuel : ResolveResult
  deriving DecidableEq, Repr

/-- `findFinalOwnerRef` from the source, with explicit fuel bounding the
recursion depth. Returns the outcome together with the list of store keys
fetched, in order. A nil owner reference returns `ok none` with no fetch;
otherwise the referenced object is fetched in the namespace `nsv` passed down
unchanged, and if it has a controller owner the function recurses, else the
current reference is returned. -/
def findFinalOwnerRef (store : List K8sObject) (nsv : String) :
    Option OwnerReference → Nat → ResolveResult × List NamespacedName
  | none, _ => (ResolveResult.ok none, [])
  | some _, 0 => (ResolveResult.outOfFuel, [])
  | some ref, fuel + 1 =>
    let key : NamespacedName := { ns := nsv, name := ref.name }
    match fetch store ref.apiVersion ref.kind key with
    | none => (ResolveResult.fetchErr key, [key])
    | some obj =>
      match getControllerOf obj.ownerReferences with
      | some newOwnerRef =>
        let r := findFinalOwnerRef store nsv (some newOwnerRef) fuel
        (r.1, key :: r.2)
      | none => (ResolveResult.ok (some ref), [key])

/-- Outcome of `getPodOwnerRef`: missing pod-name environment variable
(`envErr`), a failed store get (`fetchErr`), divergence of the inner
resolution (`outOfFuel`), or the resolved owner reference (`ok`). -/
inductive PodOwnerResult where
  | envErr : PodOwnerResult
  | fetchErr : NamespacedName → PodOwnerResult
  | outOfFuel : PodOwnerResult
  | ok : OwnerReference → PodOwnerResult
  deriving DecidableEq, Repr

/-- `getPodOwnerRef` from the source: read the pod name from the environment
(given here as `podNameEnv`), fail if empty; fetch the pod; restore its
cleared type metadata to `v1`/`Pod`; resolve the final owner of the pod's
controller owner reference; if that resolution returns nil, fall back to a
synthetic controller reference to the pod itself. Also returns the trace of
store keys fetched. -/
def getPodOwnerRef (podNameEnv : String) (store : List K8sObject)
    (nsv : String) (fuel : Nat) : PodOwnerResult × List NamespacedName :=
  if podNameEnv = "" then (PodOwnerResult.envErr, [])
  else
    let key : NamespacedName := { ns := nsv, name := podNameEnv }
    match fetch store "v1" "Pod" key with
    | none => (PodOwnerResult.fetchErr key, [key])
    | some pod =>
      let pod2 := { pod with apiVersion := "v1", kind := "Pod" }
      let podOwnerRefs := newControllerRef pod2
      let ownerRef := getControllerOf pod.ownerReferences
      match findFinalOwnerRef store nsv ownerRef fuel with
      | (ResolveResult.ok (some finalOwnerRef), tr) =>
        (PodOwnerResult.ok finalOwnerRef, key :: tr)
      | (ResolveResult.ok none, tr) => (PodOwnerResult.ok podOwnerRefs, key :: tr)
      | (ResolveResult.fetchErr k, tr) => (PodOwnerResult.fetchErr k, key :: tr)
      | (ResolveResult.outOfFuel, tr) => (PodOwnerResult.outOfFuel, key :: tr)

/-- A `v1.ServicePort`: only its name and port number matter here. -/
structure ServicePort where
  name : String
  port : Int
  deriving DecidableEq, Repr

/-- A `v1.Service` as far as this package reads and writes it: metadata
(name, namespace `ns`, labels, resource version, owner references) and the
spec fields (service type, cluster IP, ports, selector). -/
structure Service where
  name : String
  ns : String
  labels : List (String × String)
  resourceVersion : String
  ownerReferences : List OwnerReference
  specType : String
  clusterIP : String
  ports : List ServicePort
  selector : List (String × String)
  deriving DecidableEq, Repr

/-- What the store answers a create call with: success, an already-exists
error, or any other error. -/
inductive CreateResult where
  | ok : CreateResult
  | alreadyExists : CreateResult
  | otherErr : String → CreateResult
  deriving DecidableEq, Repr

/-- Oracle model of the object-store client as `createOrUpdateService` uses
it: the answers the store gives to the create call, to the subsequent get of
the existing service, and to the update (`none` means the update succeeds). -/
structure SvcClient where
  createResult : CreateResult
  getResult : Except String Service
  updateResult : Option String
  deriving Repr

/-- A store operation performed by the service publisher. -/
inductive SvcOp where
  | create : Service → SvcOp
  | get : NamespacedName → SvcOp
  | update : Service → SvcOp
  deriving DecidableEq, Repr

/-- True exactly on a `get` operation. -/
def SvcOp.isGet : SvcOp → Bool
  | SvcOp.get _ => true
  | _ => false

/-- True exactly on an `update` operation. -/
def SvcOp.isUpdate : SvcOp → Bool
  | SvcOp.update _ => true
  | _ => false

/-- `createOrUpdateService` from the source: try to create the service; on an
already-exists error, get the existing service, copy its resource version
onto the new descriptor, copy its cluster IP as well when its type is
`ClusterIP`, and issue an update; any other error from create, get or update
is returned as is. Returns the outcome and the trace of store operations. -/
def createOrUpdateService (client : SvcClient) (s : Service) :
    Except String Service × List SvcOp :=
  match client.createResult with
  | CreateResult.ok => (Except.ok s, [SvcOp.create s])
  | CreateResult.otherErr msg => (Except.error msg, [SvcOp.create s])
  | CreateResult.alreadyExists =>
    let key : NamespacedName := { ns := s.ns, name := s.name }
    match client.getResult with
    | Except.error msg => (Except.error msg, [SvcOp.create s, SvcOp.get key])
    | Except.ok existingService =>
      let s1 := { s with resourceVersion := existingService.resourceVersion }
      let s2 :=
        if existingService.specType = "ClusterIP" then
          { s1 with clusterIP := existingService.clusterIP }
        else s1
      match client.updateResult with
      | some msg =>
        (Except.error msg, [SvcOp.create s, SvcOp.get key, SvcOp.update s2])
      | none =>
        (Except.ok s2, [SvcOp.create s, SvcOp.get key, SvcOp.update s2])

/-- The prometheus part of the controller configuration: the enabled label
names and the three histogram bucket configurations. Bucket boundaries are
float64 in Go and are modelled as rationals. -/
structure PrometheusConfig where
  enabledLabels : List String
  buildRunEstablishDurationBuckets : List Rat
  buildRunCompletionDurationBuckets : List Rat
  buildRunRampUpDurationBuckets : List Rat
  deriving Repr

/-- The slice of `config.Config` this package reads: the prometheus settings
and the manager leader-election namespace used for the metrics service. -/
structure Config where
  prometheus : PrometheusConfig
  leaderElectionNamespace : String
  deriving Repr

/-- Outcome of `CreateMetricsService`: the published service, or one of its
error paths (empty port list, client construction failure, owner resolution
failure, store failure during create-or-update). -/
inductive PublishResult where
  | ok : Service → PublishResult
  | emptyPortsErr : PublishResult
  | newClientErr : String → PublishResult
  | ownerErr : PodOwnerResult → PublishResult
  | storeErr : String → PublishResult
  deriving Repr

/-- `CreateMetricsService` from the source: reject an empty port list before
anything else; construct the client (its possible failure is the oracle
`newClientFailure`); build the service descriptor named
`shipwright-build-controller-metrics` in the leader-election namespace with
the name selector label; resolve the pod owner and attach it as the sole
owner reference; then create-or-update the service. Returns the outcome, the
trace of owner-resolution fetches, and the trace of service store
operations. -/
def CreateMetricsService (podNameEnv : String) (store : List K8sObject)
    (newClientFailure : Option String) (client : SvcClient) (buildCfg : Config)
    (servicePorts : List ServicePort) (fuel : Nat) :
    PublishResult × List NamespacedName × List SvcOp :=
  if servicePorts.length < 1 then (PublishResult.emptyPortsErr, [], [])
  else
    match newClientFailure with
    | some msg => (PublishResult.newClientErr msg, [], [])
    | none =>
      let label := [("name", BuildControllerName)]
      let service : Service :=
        { name := BuildControllerName ++ "-metrics"
          ns := buildCfg.leaderElectionNamespace
          labels := label
          resourceVersion := ""
          ownerReferences := []
          specType := ""
          clusterIP := ""
          ports := servicePorts
          selector := label }
      match getPodOwnerRef podNameEnv store buildCfg.leaderElectionNamespace fuel with
      | (PodOwnerResult.ok ownRef, tr) =>
        let service2 := { service with ownerReferences := [ownRef] }
        match createOrUpdateService client service2 with
        | (Except.error msg, ops) =>
          (PublishResult.storeErr
            ("failed to create or get service for metrics: " ++ msg), tr, ops)
        | (Except.ok s, ops) => (PublishResult.ok s, tr, ops)
      | (e, tr) => (PublishResult.ownerErr e, tr, [])

/-- A `prometheus.CounterVec`: the label names it was created with, and the
list of label sets passed to its increments, in order. -/
structure CounterVec where
  labelNames : List String
  incs : List (List (String × String))
  deriving DecidableEq, Repr

/-- A `prometheus.HistogramVec`: the label names and bucket boundaries it was
created with, and the list of recorded observations (label set and observed
value in seconds), in order. -/
structure HistogramVec where
  labelNames : List String
  buckets : List Rat
  observations : List (List (String × String) × Rat)
  deriving DecidableEq, Repr

/-- The package-level mutable state of the metrics package: the two counters,
the five histograms (each `none` until `InitPrometheus` creates it), the four
enabled-label flags, and the `initialized` boolean (field `initDone`). -/
structure MetricsState where
  buildCount : Option CounterVec
  buildRunCount : Option CounterVec
  buildRunEstablishDuration : Option HistogramVec
  buildRunCompletionDuration : Option HistogramVec
  buildRunRampUpDuration : Option HistogramVec
  taskRunRampUpDuration : Option HistogramVec
  taskRunPodRampUpDuration : Option HistogramVec
  buildStrategyLabelEnabled : Bool
  namespaceLabelEnabled : Bool
  buildLabelEnabled : Bool
  buildRunLabelEnabled : Bool
  initDone : Bool
  deriving DecidableEq, Repr

/-- The state of the package-level variables at process start: no instrument
exists, every label flag is false, and `initialized` is false. -/
def initialState : MetricsState :=
  { buildCount := none
    buildRunCount := none
    buildRunEstablishDuration := none
    buildRunCompletionDuration := none
    buildRunRampUpDuration := none
    taskRunRampUpDuration := none
    taskRunPodRampUpDuration := none
    buildStrategyLabelEnabled := false
    namespaceLabelEnabled := false
    buildLabelEnabled := false
    buildRunLabelEnabled := false
    initDone := false }

/-- `contains` from the source: linear scan of a string slice. -/
def contains (slice : List String) (element : String) : Bool :=
  match slice with
  | [] => false
  | candidate :: rest => if candidate == element then true else contains rest element

/-- `time.Duration` is a signed 64-bit count of nanoseconds; modelled as an
unbounded integer. `seconds` is `Duration.Seconds()`, the value a histogram
observation records, as an exact rational. -/
def seconds (d : Int) : Rat := (d : Rat) / 1000000000

/-- `InitPrometheus` from the source: return immediately when already
initialized; otherwise mark initialized, compute the build and build-run
label name lists from the enabled labels (in the fixed order buildstrategy,
namespace, build, buildrun), set the corresponding flags, and create the two
counters and five histograms with those label names and the configured
buckets. -/
def InitPrometheus (config : Config) (s : MetricsState) : MetricsState :=
  if s.initDone then s
  else
    let bsOn := contains config.prometheus.enabledLabels BuildStrategyLabel
    let nsOn := contains config.prometheus.enabledLabels NamespaceLabel
    let bOn := contains config.prometheus.enabledLabels BuildLabel
    let brOn := contains config.prometheus.enabledLabels BuildRunLabel
    let buildLabels : List String :=
      (if bsOn then [BuildStrategyLabel] else []) ++
      (if nsOn then [NamespaceLabel] else []) ++
      (if bOn then [BuildLabel] else [])
    let buildRunLabels : List String :=
      buildLabels ++ (if brOn then [BuildRunLabel] else [])
    { s with
      initDone := true
      buildStrategyLabelEnabled := if bsOn then true else s.buildStrategyLabelEnabled
      namespaceLabelEnabled := if nsOn then true else s.namespaceLabelEnabled
      buildLabelEnabled := if bOn then true else s.buildLabelEnabled
      buildRunLabelEnabled := if brOn then true else s.buildRunLabelEnabled
      buildCount := some { labelNames := buildLabels, incs := [] }
      buildRunCount := some { labelNames := buildRunLabels, incs := [] }
      buildRunEstablishDuration := some
        { labelNames := buildRunLabels
          buckets := config.prometheus.buildRunEstablishDurationBuckets
          observations := [] }
      buildRunCompletionDuration := some
        { labelNames := buildRunLabels
          buckets := config.prometheus.buildRunCompletionDurationBuckets
          observations := [] }
      buildRunRampUpDuration := some
        { labelNames := buildRunLabels
          buckets := config.prometheus.buildRunRampUpDurationBuckets
          observations := [] }
      taskRunRampUpDuration := some
        { labelNames := buildRunLabels
          buckets := config.prometheus.buildRunRampUpDurationBuckets
          observations := [] }
      taskRunPodRampUpDuration := some
        { labelNames := buildRunLabels
          buckets := config.prometheus.buildRunRampUpDurationBuckets
          observations := [] } }

/-- `createBuildLabels` from the source: a label set holding a value for each
of the three build label dimensions whose flag is enabled, nothing else. -/
def createBuildLabels (s : MetricsState)
    (buildStrategy nsv build : String) : List (String × String) :=
  (if s.buildStrategyLabelEnabled then [(BuildStrategyLabel, buildStrategy)] else []) ++
  (if s.namespaceLabelEnabled then [(NamespaceLabel, nsv)] else []) ++
  (if s.buildLabelEnabled then [(BuildLabel, build)] else [])

/-- `createBuildRunLabels` from the source: a label set holding a value for
each of the four label dimensions whose flag is enabled, nothing else. -/
def createBuildRunLabels (s : MetricsState)
    (buildStrategy nsv build buildRun : String) : List (String × String) :=
  (if s.buildStrategyLabelEnabled then [(BuildStrategyLabel, buildStrategy)] else []) ++
  (if s.namespaceLabelEnabled then [(NamespaceLabel, nsv)] else []) ++
  (if s.buildLabelEnabled then [(BuildLabel, build)] else []) ++
  (if s.buildRunLabelEnabled then [(BuildRunLabel, buildRun)] else [])

/-- `BuildCountInc` from the source: no-op while the counter is nil, else
increment it with the build labels. -/
def BuildCountInc (s : MetricsState) (buildStrategy nsv build : String) :
    MetricsState :=
  match s.buildCount with
  | none => s
  | some cv =>
    let cv2 := { cv with
      incs := cv.incs ++ [createBuildLabels s buildStrategy nsv build] }
    { s with buildCount := some cv2 }

/-- `BuildRunCountInc` from the source: no-op while the counter is nil, else
increment it with the build-run labels. -/
def BuildRunCountInc (s : MetricsState)
    (buildStrategy nsv build buildRun : String) : MetricsState :=
  match s.buildRunCount with
  | none => s
  | some cv =>
    let cv2 := { cv with
      incs := cv.incs ++ [createBuildRunLabels s buildStrategy nsv build buildRun] }
    { s with buildRunCount := some cv2 }

/-- `BuildRunEstablishObserve` from the source: no-op while the histogram is
nil, else observe the duration in seconds under the build-run labels. -/
def BuildRunEstablishObserve (s : MetricsState)
    (buildStrategy nsv build buildRun : String) (duration : Int) : MetricsState :=
  match s.buildRunEstablishDuration with
  | none => s
  | some hv =>
    let hv2 := { hv with
      observations := hv.observations ++
        [(createBuildRunLabels s buildStrategy nsv build buildRun, seconds duration)] }
    { s with buildRunEstablishDuration := some hv2 }

/-- `BuildRunCompletionObserve` from the source: no-op while the histogram is
nil, else observe the duration in seconds under the build-run labels. -/
def BuildRunCompletionObserve (s : MetricsState)
    (buildStrategy nsv build buildRun : String) (duration : Int) : MetricsState :=
  match s.buildRunCompletionDuration with
  | none => s
  | some hv =>
    let hv2 := { hv with
      observations := hv.observations ++
        [(createBuildRunLabels s buildStrategy nsv build buildRun, seconds duration)] }
    { s with buildRunCompletionDuration := some hv2 }

/-- `BuildRunRampUpDurationObserve` from the source: no-op while the
histogram is nil, else observe the duration in seconds under the build-run
labels. -/
def BuildRunRampUpDurationObserve (s : MetricsState)
    (buildStrategy nsv build buildRun : String) (duration : Int) : MetricsState :=
  match s.buildRunRampUpDuration with
  | none => s
  | some hv =>
    let hv2 := { hv with
      observations := hv.observations ++
        [(createBuildRunLabels s buildStrategy nsv build buildRun, seconds duration)] }
    { s with buildRunRampUpDuration := some hv2 }

/-- `TaskRunRampUpDurationObserve` from the source: no-op while the histogram
is nil, else observe the duration in seconds under the build-run labels. -/
def TaskRunRampUpDurationObserve (s : MetricsState)
    (buildStrategy nsv build buildRun : String) (duration : Int) : MetricsState :=
  match s.taskRunRampUpDuration with
  | none => s
  | some hv =>
    let hv2 := { hv with
      observations := hv.observations ++
        [(createBuildRunLabels s buildStrategy nsv build buildRun, seconds duration)] }
    { s with taskRunRampUpDuration := some hv2 }

/-- `TaskRunPodRampUpDurationObserve` from the source: no-op while the
histogram is nil, else observe the duration in seconds under the build-run
labels. -/
def TaskRunPodRampUpDurationObserve (s : MetricsState)
    (buildStrategy nsv build buildRun : String) (duration : Int) : MetricsState :=
  match s.taskRunPodRampUpDuration with
  | none => s
  | some hv =>
    let hv2 := { hv with
      observations := hv.observations ++
        [(createBuildRunLabels s buildStrategy nsv build buildRun, seconds duration)] }
    { s with taskRunPodRampUpDuration := some hv2 }

lemma InitPrometheus_initDone (c : Config) (s : MetricsState) :
    (InitPrometheus c s).initDone = true := by
  unfold InitPrometheus
  split
  · simp_all
  · rfl

/-- Claim C4: initialization is idempotent. For every pair of configurations
`c1`, `c2` and every starting state, running `InitPrometheus c2` after
`InitPrometheus c1` leaves the whole package-level state (every instrument,
every enabled-label flag, the initialized flag) exactly as `InitPrometheus c1`
alone left it; the second call changes nothing and raises no error. -/
theorem initPrometheus_idempotent (c1 c2 : Config) (s : MetricsState) :
    InitPrometheus c2 (InitPrometheus c1 s) = InitPrometheus c1 s := by
  have h := InitPrometheus_initDone c1 s
  generalize hX : InitPrometheus c1 s = X at h ⊢
  unfold InitPrometheus
  simp [h]

/-- Claim C8: every record and observe operation invoked before
`InitPrometheus` has run (that is, on the initial package state, where every
instrument is still nil) is a silent no-op: it returns normally and leaves the
state unchanged. -/
theorem record_before_init_noop (bs nsv b br : String) (d : Int) :
    BuildCountInc initialState bs nsv b = initialState ∧
    BuildRunCountInc initialState bs nsv b br = initialState ∧
    BuildRunEstablishObserve initialState bs nsv b br d = initialState ∧
    BuildRunCompletionObserve initialState bs nsv b br d = initialState ∧
    BuildRunRampUpDurationObserve initialState bs nsv b br d = initialState ∧
    TaskRunRampUpDurationObserve initialState bs nsv b br d = initialState ∧
    TaskRunPodRampUpDurationObserve initialState bs nsv b br d = initialState :=
  ⟨rfl, rfl, rfl, rfl, rfl, rfl, rfl⟩

/-- Claim C5: for every enabled-label configuration, the build counter is
created with exactly the enabled keys among buildstrategy, namespace and
build (in that order), every build-run instrument is created with exactly the
enabled keys among buildstrategy, namespace, build and buildrun, and the
label sets supplied by subsequent record and observe calls carry values for
exactly those keys — a disabled dimension is absent, never present with a
placeholder value. -/
theorem initPrometheus_label_keys (cfg : Config) (v1 v2 v3 v4 : String) :
    Option.map CounterVec.labelNames (InitPrometheus cfg initialState).buildCount =
      some ([BuildStrategyLabel, NamespaceLabel, BuildLabel].filter
        (fun l => contains cfg.prometheus.enabledLabels l)) ∧
    Option.map CounterVec.labelNames (InitPrometheus cfg initialState).buildRunCount =
      some ([BuildStrategyLabel, NamespaceLabel, BuildLabel, BuildRunLabel].filter
        (fun l => contains cfg.prometheus.enabledLabels l)) ∧
    Option.map HistogramVec.labelNames (InitPrometheus cfg initialState).buildRunEstablishDuration =
      some ([BuildStrategyLabel, NamespaceLabel, BuildLabel, BuildRunLabel].filter
        (fun l => contains cfg.prometheus.enabledLabels l)) ∧
    Option.map HistogramVec.labelNames (InitPrometheus cfg initialState).buildRunCompletionDuration =
      some ([BuildStrategyLabel, NamespaceLabel, BuildLabel, BuildRunLabel].filter
        (fun l => contains cfg.prometheus.enabledLabels l)) ∧
    Option.map HistogramVec.labelNames (InitPrometheus cfg initialState).buildRunRampUpDuration =
      some ([BuildStrategyLabel, NamespaceLabel, BuildLabel, BuildRunLabel].filter
        (fun l => contains cfg.prometheus.enabledLabels l)) ∧
    Option.map HistogramVec.labelNames (InitPrometheus cfg initialState).taskRunRampUpDuration =
      some ([BuildStrategyLabel, NamespaceLabel, BuildLabel, BuildRunLabel].filter
        (fun l => contains cfg.prometheus.enabledLabels l)) ∧
    Option.map HistogramVec.labelNames (InitPrometheus cfg initialState).taskRunPodRampUpDuration =
      some ([BuildStrategyLabel, NamespaceLabel, BuildLabel, BuildRunLabel].filter
        (fun l => contains cfg.prometheus.enabledLabels l)) ∧
    (createBuildLabels (InitPrometheus cfg initialState) v1 v2 v3).map Prod.fst =
      [BuildStrategyLabel, NamespaceLabel, BuildLabel].filter
        (fun l => contains cfg.prometheus.enabledLabels l) ∧
    (createBuildRunLabels (InitPrometheus cfg initialState) v1 v2 v3 v4).map Prod.fst =
      [BuildStrategyLabel, NamespaceLabel, BuildLabel, BuildRunLabel].filter
        (fun l => contains cfg.prometheus.enabledLabels l) := by
  cases hbs : contains cfg.prometheus.enabledLabels BuildStrategyLabel <;>
  cases hns : contains cfg.prometheus.enabledLabels NamespaceLabel <;>
  cases hb : contains cfg.prometheus.enabledLabels BuildLabel <;>
  cases hbr : contains cfg.prometheus.enabledLabels BuildRunLabel <;>
    simp [InitPrometheus, initialState, createBuildLabels, createBuildRunLabels,
      hbs, hns, hb, hbr, List.filter]

lemma fetch_matches {store : List K8sObject} {av k : String}
    {key : NamespacedName} {o : K8sObject} (h : fetch store av k key = some o) :
    o.apiVersion = av ∧ o.kind = k ∧ o.ns = key.ns ∧ o.name = key.name := by
  have hp := List.find?_some h
  simp only [Bool.and_eq_true, beq_iff_eq] at hp
  exact ⟨hp.1.1.1, hp.1.1.2, hp.1.2, hp.2⟩

lemma findFinalOwnerRef_nil (store : List K8sObject) (nsv : String) (fuel : Nat) :
    findFinalOwnerRef store nsv none fuel = (ResolveResult.ok none, []) := by
  cases fuel <;> simp [findFinalOwnerRef]

lemma findFinalOwnerRef_step_notFound {store : List K8sObject} {nsv : String}
    {ref : OwnerReference} (fuel : Nat)
    (hf : fetch store ref.apiVersion ref.kind { ns := nsv, name := ref.name } = none) :
    findFinalOwnerRef store nsv (some ref) (fuel + 1) =
      (ResolveResult.fetchErr { ns := nsv, name := ref.name },
       [{ ns := nsv, name := ref.name }]) := by
  simp [findFinalOwnerRef, hf]

lemma findFinalOwnerRef_step_done {store : List K8sObject} {nsv : String}
    {ref : OwnerReference} {obj : K8sObject} (fuel : Nat)
    (hf : fetch store ref.apiVersion ref.kind { ns := nsv, name := ref.name } = some obj)
    (hc : getControllerOf obj.ownerReferences = none) :
    findFinalOwnerRef store nsv (some ref) (fuel + 1) =
      (ResolveResult.ok (some ref), [{ ns := nsv, name := ref.name }]) := by
  simp [findFinalOwnerRef, hf, hc]

lemma findFinalOwnerRef_step_rec {store : List K8sObject} {nsv : String}
    {ref newRef : OwnerReference} {obj : K8sObject} (fuel : Nat)
    (hf : fetch store ref.apiVersion ref.kind { ns := nsv, name := ref.name } = some obj)
    (hc : getControllerOf obj.ownerReferences = some newRef) :
    findFinalOwnerRef store nsv (some ref) (fuel + 1) =
      ((findFinalOwnerRef store nsv (some newRef) fuel).1,
        { ns := nsv, name := ref.name } :: (findFinalOwnerRef store nsv (some newRef) fuel).2) := by
  simp [findFinalOwnerRef, hf, hc]

/-- Claim C1: on an ownership chain Pod → O1 → O2 where O2 has no
controller-owner reference, owner resolution returns the owner reference to
the top-level object O2, and the fetch trace is exactly the initial Pod fetch
followed by one fetch per hop of the chain — two fetches beyond the Pod. -/
theorem owner_chain_three_level (env nsv : String) (store : List K8sObject)
    (pod o1 o2 : K8sObject) (r1 r2 : OwnerReference) (n : Nat)
    (hEnv : env ≠ "")
    (hPod : fetch store "v1" "Pod" { ns := nsv, name := env } = some pod)
    (hPodOwner : getControllerOf pod.ownerReferences = some r1)
    (hO1 : fetch store r1.apiVersion r1.kind { ns := nsv, name := r1.name } = some o1)
    (hO1Owner : getControllerOf o1.ownerReferences = some r2)
    (hO2 : fetch store r2.apiVersion r2.kind { ns := nsv, name := r2.name } = some o2)
    (hO2Owner : getControllerOf o2.ownerReferences = none) :
    getPodOwnerRef env store nsv (n + 2) =
      (PodOwnerResult.ok r2,
       [{ ns := nsv, name := env }, { ns := nsv, name := r1.name },
        { ns := nsv, name := r2.name }]) := by
  have h2 : n + 2 = (n + 1) + 1 := rfl
  have hchain : findFinalOwnerRef store nsv (some r1) (n + 2) =
      (ResolveResult.ok (some r2),
       [{ ns := nsv, name := r1.name }, { ns := nsv, name := r2.name }]) := by
    rw [h2, findFinalOwnerRef_step_rec (n + 1) hO1 hO1Owner,
      findFinalOwnerRef_step_done n hO2 hO2Owner]
  simp [getPodOwnerRef, hEnv, hPod, hPodOwner, hchain]

def r1W : OwnerReference :=
  { apiVersion := "apps/v1", kind := "ReplicaSet", name := "rs-1",
    controller := true, blockOwnerDeletion := true }

def r2W : OwnerReference :=
  { apiVersion := "apps/v1", kind := "Deployment", name := "dep-1",
    controller := true, blockOwnerDeletion := true }

def podW : K8sObject :=
  { apiVersion := "v1", kind := "Pod", name := "pod-1", ns := "team-a",
    ownerReferences := [r1W] }

def rsW : K8sObject :=
  { apiVersion := "apps/v1", kind := "ReplicaSet", name := "rs-1",
    ns := "team-a", ownerReferences := [r2W] }

def depW : K8sObject :=
  { apiVersion := "apps/v1", kind := "Deployment", name := "dep-1",
    ns := "team-a", ownerReferences := [] }

/-- A store holding the three-level chain pod-1 → rs-1 → dep-1. -/
def store3W : List K8sObject := [podW, rsW, depW]

/-- Witness for claim C1: the three-level chain evaluated on a concrete
store. -/
theorem owner_chain_three_level_witness :
    getPodOwnerRef "pod-1" store3W "team-a" 2 =
      (PodOwnerResult.ok r2W,
       [{ ns := "team-a", name := "pod-1" }, { ns := "team-a", name := "rs-1" },
        { ns := "team-a", name := "dep-1" }]) :=
  owner_chain_three_level "pod-1" "team-a" store3W podW rsW depW r1W r2W 0
    (by decide) (by decide) (by decide) (by decide) (by decide) (by decide)
    (by decide)

/-- Claim C2: a Pod with no controller-owner reference resolves to a
synthetic controller-owner reference pointing at the Pod itself (API version
v1, kind Pod, the pod name), with no owner fetch beyond the initial Pod
fetch; moreover the fetched pod name is the requested pod name. -/
theorem pod_self_owner (env nsv : String) (store : List K8sObject)
    (pod : K8sObject) (fuel : Nat)
    (hEnv : env ≠ "")
    (hPod : fetch store "v1" "Pod" { ns := nsv, name := env } = some pod)
    (hNoOwner : getControllerOf pod.ownerReferences = none) :
    getPodOwnerRef env store nsv fuel =
      (PodOwnerResult.ok
        { apiVersion := "v1", kind := "Pod", name := pod.name,
          controller := true, blockOwnerDeletion := true },
       [{ ns := nsv, name := env }]) ∧
    pod.name = env := by
  constructor
  · simp [getPodOwnerRef, hEnv, hPod, hNoOwner, newControllerRef,
      findFinalOwnerRef_nil]
  · exact (fetch_matches hPod).2.2.2

def podAloneW : K8sObject :=
  { apiVersion := "v1", kind := "Pod", name := "pod-2", ns := "team-a",
    ownerReferences := [] }

/-- A store holding only an ownerless pod. -/
def store1W : List K8sObject := [podAloneW]

/-- Witness for claim C2: the ownerless pod evaluated on a concrete store. -/
theorem pod_self_owner_witness :
    getPodOwnerRef "pod-2" store1W "team-a" 3 =
      (PodOwnerResult.ok
        { apiVersion := "v1", kind := "Pod", name := podAloneW.name,
          controller := true, blockOwnerDeletion := true },
       [{ ns := "team-a", name := "pod-2" }]) ∧
    podAloneW.name = "pod-2" :=
  pod_self_owner "pod-2" "team-a" store1W podAloneW 3
    (by decide) (by decide) (by decide)

/-- Claim C3: when the create fails with already-exists, the publisher
performs exactly one get of the existing service and one update; the updated
descriptor carries the existing resource version and, when the existing
service type is ClusterIP, the existing cluster IP; any other create, get or
update failure is returned as a terminal error. -/
theorem create_or_update_service_merge (client : SvcClient) (s ex : Service)
    (msg : String) :
    (client.createResult = CreateResult.alreadyExists →
     client.getResult = Except.ok ex →
     client.updateResult = none →
     ex.specType = "ClusterIP" →
     createOrUpdateService client s =
       (Except.ok
          { s with resourceVersion := ex.resourceVersion, clusterIP := ex.clusterIP },
        [SvcOp.create s, SvcOp.get { ns := s.ns, name := s.name },
         SvcOp.update
           { s with resourceVersion := ex.resourceVersion, clusterIP := ex.clusterIP }])) ∧
    (client.createResult = CreateResult.alreadyExists →
     client.getResult = Except.ok ex →
     client.updateResult = none →
     ex.specType ≠ "ClusterIP" →
     createOrUpdateService client s =
       (Except.ok { s with resourceVersion := ex.resourceVersion },
        [SvcOp.create s, SvcOp.get { ns := s.ns, name := s.name },
         SvcOp.update { s with resourceVersion := ex.resourceVersion }])) ∧
    (client.createResult = CreateResult.otherErr msg →
     createOrUpdateService client s = (Except.error msg, [SvcOp.create s])) ∧
    (client.createResult = CreateResult.alreadyExists →
     client.getResult = Except.error msg →
     createOrUpdateService client s =
       (Except.error msg,
        [SvcOp.create s, SvcOp.get { ns := s.ns, name := s.name }])) ∧
    (client.createResult = CreateResult.alreadyExists →
     client.getResult = Except.ok ex →
     client.updateResult = some msg →
     (createOrUpdateService client s).1 = Except.error msg) := by
  refine ⟨?_, ?_, ?_, ?_, ?_⟩
  · intro h1 h2 h3 h4
    simp [createOrUpdateService, h1, h2, h3, h4]
  · intro h1 h2 h3 h4
    simp [createOrUpdateService, h1, h2, h3, h4]
  · intro h1
    simp [createOrUpdateService, h1]
  · intro h1 h2
    simp [createOrUpdateService, h1, h2]
  · intro h1 h2 h3
    by_cases h4 : ex.specType = "ClusterIP" <;>
      simp [createOrUpdateService, h1, h2, h3, h4]

def exW : Service :=
  { name := "shipwright-build-controller-metrics", ns := "team-a",
    labels := [("name", BuildControllerName)], resourceVersion := "42",
    ownerReferences := [], specType := "ClusterIP", clusterIP := "10.0.0.7",
    ports := [], selector := [("name", BuildControllerName)] }

def newSvcW : Service :=
  { name := "shipwright-build-controller-metrics", ns := "team-a",
    labels := [("name", BuildControllerName)], resourceVersion := "",
    ownerReferences := [r2W], specType := "", clusterIP := "",
    ports := [{ name := "http-metrics", port := 8383 }],
    selector := [("name", BuildControllerName)] }

def clientExistsW : SvcClient :=
  { createResult := CreateResult.alreadyExists, getResult := Except.ok exW,
    updateResult := none }

/-- Witness for claim C3: publishing over an existing ClusterIP service with
an assigned cluster IP performs create, get, update and preserves the
resource version and cluster IP. -/
theorem create_or_update_service_merge_witness :
    createOrUpdateService clientExistsW newSvcW =
      (Except.ok
         { newSvcW with resourceVersion := exW.resourceVersion,
                        clusterIP := exW.clusterIP },
       [SvcOp.create newSvcW,
        SvcOp.get { ns := newSvcW.ns, name := newSvcW.name },
        SvcOp.update
          { newSvcW with resourceVersion := exW.resourceVersion,
                         clusterIP := exW.clusterIP }]) :=
  (create_or_update_service_merge clientExistsW newSvcW exW "").1
    rfl rfl rfl (by decide)

/-- Claim C9: configuration errors are fatal and immediate. An empty port
list makes `CreateMetricsService` return the empty-ports error with no store
operation of any kind, and an unset pod-name environment variable makes
`getPodOwnerRef` (and `CreateMetricsService` through it) return the
environment error without a single fetch; neither path retries. -/
theorem config_errors_fatal (env nsv : String) (store : List K8sObject)
    (ncf : Option String) (client : SvcClient) (buildCfg : Config)
    (servicePorts : List ServicePort) (fuel : Nat) :
    (servicePorts.length < 1 →
      CreateMetricsService env store ncf client buildCfg servicePorts fuel =
        (PublishResult.emptyPortsErr, [], [])) ∧
    (env = "" →
      getPodOwnerRef env store nsv fuel = (PodOwnerResult.envErr, [])) ∧
    (env = "" → ¬ servicePorts.length < 1 → ncf = none →
      CreateMetricsService env store ncf client buildCfg servicePorts fuel =
        (PublishResult.ownerErr PodOwnerResult.envErr, [], [])) := by
  refine ⟨?_, ?_, ?_⟩
  · intro h
    simp [CreateMetricsService, h]
  · intro h
    simp [getPodOwnerRef, h]
  · intro h1 h2 h3
    simp [CreateMetricsService, getPodOwnerRef, h1, h2, h3]

def clientZeroW : SvcClient :=
  { createResult := CreateResult.ok, getResult := Except.error "",
    updateResult := none }

def cfgW : Config :=
  { prometheus :=
      { enabledLabels := [], buildRunEstablishDurationBuckets := [],
        buildRunCompletionDurationBuckets := [],
        buildRunRampUpDurationBuckets := [] },
    leaderElectionNamespace := "team-a" }

/-- Witness for claim C9: both configuration errors evaluated concretely. -/
theorem config_errors_fatal_witness :
    CreateMetricsService "pod-1" [] none clientZeroW cfgW [] 4 =
      (PublishResult.emptyPortsErr, [], []) ∧
    getPodOwnerRef "" [] "team-a" 4 = (PodOwnerResult.envErr, []) ∧
    CreateMetricsService "" [] none clientZeroW cfgW
        [{ name := "http-metrics", port := 8383 }] 4 =
      (PublishResult.ownerErr PodOwnerResult.envErr, [], []) :=
  ⟨(config_errors_fatal "pod-1" "team-a" [] none clientZeroW cfgW [] 4).1
      (by decide),
   (config_errors_fatal "" "team-a" [] none clientZeroW cfgW [] 4).2.1 rfl,
   (config_errors_fatal "" "team-a" [] none clientZeroW cfgW
      [{ name := "http-metrics", port := 8383 }] 4).2.2 rfl (by decide) rfl⟩

lemma findFinalOwnerRef_trace_ns (store : List K8sObject) (nsv : String) :
    ∀ (fuel : Nat) (r : Option OwnerReference),
    ((findFinalOwnerRef store nsv r fuel).2.all fun k => k.ns == nsv) = true := by
  intro fuel
  induction fuel with
  | zero => intro r; cases r <;> simp [findFinalOwnerRef]
  | succ n ih =>
    intro r
    cases r with
    | none => simp [findFinalOwnerRef]
    | some ref =>
      cases hf : fetch store ref.apiVersion ref.kind { ns := nsv, name := ref.name } with
      | none => simp [findFinalOwnerRef, hf]
      | some obj =>
        cases hc : getControllerOf obj.ownerReferences with
        | none => simp [findFinalOwnerRef, hf, hc]
        | some nr => simp [findFinalOwnerRef, hf, hc, ih]

lemma getPodOwnerRef_trace_ns (env nsv : String) (store : List K8sObject)
    (fuel : Nat) :
    ((getPodOwnerRef env store nsv fuel).2.all fun k => k.ns == nsv) = true := by
  by_cases henv : env = ""
  · simp [getPodOwnerRef, henv]
  · cases hf : fetch store "v1" "Pod" { ns := nsv, name := env } with
    | none => simp [getPodOwnerRef, henv, hf]
    | some pod =>
      have htr := findFinalOwnerRef_trace_ns store nsv fuel
        (getControllerOf pod.ownerReferences)
      rcases hr : findFinalOwnerRef store nsv (getControllerOf pod.ownerReferences) fuel
        with ⟨res, tr⟩
      rw [hr] at htr
      rcases res with r | k | _
      · rcases r with _ | fr <;> simp_all [getPodOwnerRef, henv, hf, hr]
      · simp_all [getPodOwnerRef, henv, hf, hr]
      · simp_all [getPodOwnerRef, henv, hf, hr]

def crossObjW : K8sObject :=
  { apiVersion := "apps/v1", kind := "Deployment", name := "owner-x",
    ns := "team-b", ownerReferences := [] }

def crossRefW : OwnerReference :=
  { apiVersion := "apps/v1", kind := "Deployment", name := "owner-x",
    controller := true, blockOwnerDeletion := true }

/-- A store whose only object lives in namespace team-b. -/
def crossStoreW : List K8sObject := [crossObjW]

/-- Claim C10: every hop of the ownership walk is fetched in the starting
namespace — both `findFinalOwnerRef` and `getPodOwnerRef` only ever fetch
keys whose namespace is the one passed in — so an owner reference whose
target lives in a different namespace is looked up in the original namespace
and resolution fails with the not-found error, even though the object exists
under its own namespace. -/
theorem owner_walk_namespace_constant :
    (∀ (store : List K8sObject) (nsv : String) (r : Option OwnerReference)
       (fuel : Nat),
      ((findFinalOwnerRef store nsv r fuel).2.all fun k => k.ns == nsv) = true) ∧
    (∀ (env nsv : String) (store : List K8sObject) (fuel : Nat),
      ((getPodOwnerRef env store nsv fuel).2.all fun k => k.ns == nsv) = true) ∧
    findFinalOwnerRef crossStoreW "team-a" (some crossRefW) 5 =
      (ResolveResult.fetchErr { ns := "team-a", name := "owner-x" },
       [{ ns := "team-a", name := "owner-x" }]) ∧
    fetch crossStoreW crossRefW.apiVersion crossRefW.kind
        { ns := "team-b", name := crossRefW.name } = some crossObjW :=
  ⟨fun store nsv r fuel => findFinalOwnerRef_trace_ns store nsv fuel r,
   fun env nsv store fuel => getPodOwnerRef_trace_ns env nsv store fuel,
   by decide, by decide⟩

/-- Claim C6, counterexample to the claim as stated: the observe operations
perform no duration check at all, so observing a negative duration on an
initialized registry does change the recorded samples of the corresponding
histogram. -/
theorem negative_observe_counterexample :
    (BuildRunEstablishObserve (InitPrometheus cfgW initialState)
        "s" "n" "b" "r" (-1)).buildRunEstablishDuration ≠
      (InitPrometheus cfgW initialState).buildRunEstablishDuration := by
  decide

/-- The statement that, on the registry state produced by initializing from
the given configuration, each of the five observe operations called with
duration `d` appends exactly one observation, carrying the build-run label
set and `d` in seconds, to its histogram. -/
def observeAppends (cfg : Config) (bs nsv b br : String) (d : Int) : Prop :=
  (BuildRunEstablishObserve (InitPrometheus cfg initialState)
      bs nsv b br d).buildRunEstablishDuration =
    Option.map (fun hv => { hv with observations := hv.observations ++
        [(createBuildRunLabels (InitPrometheus cfg initialState) bs nsv b br,
          seconds d)] })
      (InitPrometheus cfg initialState).buildRunEstablishDuration ∧
  (BuildRunCompletionObserve (InitPrometheus cfg initialState)
      bs nsv b br d).buildRunCompletionDuration =
    Option.map (fun hv => { hv with observations := hv.observations ++
        [(createBuildRunLabels (InitPrometheus cfg initialState) bs nsv b br,
          seconds d)] })
      (InitPrometheus cfg initialState).buildRunCompletionDuration ∧
  (BuildRunRampUpDurationObserve (InitPrometheus cfg initialState)
      bs nsv b br d).buildRunRampUpDuration =
    Option.map (fun hv => { hv with observations := hv.observations ++
        [(createBuildRunLabels (InitPrometheus cfg initialState) bs nsv b br,
          seconds d)] })
      (InitPrometheus cfg initialState).buildRunRampUpDuration ∧
  (TaskRunRampUpDurationObserve (InitPrometheus cfg initialState)
      bs nsv b br d).taskRunRampUpDuration =
    Option.map (fun hv => { hv with observations := hv.observations ++
        [(createBuildRunLabels (InitPrometheus cfg initialState) bs nsv b br,
          seconds d)] })
      (InitPrometheus cfg initialState).taskRunRampUpDuration ∧
  (TaskRunPodRampUpDurationObserve (InitPrometheus cfg initialState)
      bs nsv b br d).taskRunPodRampUpDuration =
    Option.map (fun hv => { hv with observations := hv.observations ++
        [(createBuildRunLabels (InitPrometheus cfg initialState) bs nsv b br,
          seconds d)] })
      (InitPrometheus cfg initialState).taskRunPodRampUpDuration

/-- Claim C6 as amended: the observe operations do not validate the duration;
on an initialized registry, each of the five observe operations called with a
negative duration records the observation into its histogram exactly as it
would any other value. -/
theorem negative_observe_recorded (cfg : Config) (bs nsv b br : String)
    (d : Int) (hd : d < 0) : observeAppends cfg bs nsv b br d := by
  refine ⟨?_, ?_, ?_, ?_, ?_⟩ <;>
    simp [InitPrometheus, initialState, BuildRunEstablishObserve,
      BuildRunCompletionObserve, BuildRunRampUpDurationObserve,
      TaskRunRampUpDurationObserve, TaskRunPodRampUpDurationObserve,
      createBuildRunLabels]

/-- Witness for the amended claim C6: a concrete negative duration on a
concretely initialized registry. -/
theorem negative_observe_recorded_witness :
    (-1 : Int) < 0 ∧ observeAppends cfgW "s" "n" "b" "r" (-1) :=
  ⟨by decide, negative_observe_recorded cfgW "s" "n" "b" "r" (-1) (by decide)⟩

/-- The step relation of the ownership walk: `ownerStep store nsv r r2` holds
when fetching the target of `r` in namespace `nsv` succeeds and the fetched
object has controller-owner reference `r2`. -/
def ownerStep (store : List K8sObject) (nsv : String)
    (r r2 : OwnerReference) : Prop :=
  ∃ obj,
    fetch store r.apiVersion r.kind { ns := nsv, name := r.name } = some obj ∧
    getControllerOf obj.ownerReferences = some r2

def cycRefA : OwnerReference :=
  { apiVersion := "example/v1", kind := "KindA", name := "obj-a",
    controller := true, blockOwnerDeletion := true }

def cycRefB : OwnerReference :=
  { apiVersion := "example/v1", kind := "KindB", name := "obj-b",
    controller := true, blockOwnerDeletion := true }

def cycObjA : K8sObject :=
  { apiVersion := "example/v1", kind := "KindA", name := "obj-a",
    ns := "team-a", ownerReferences := [cycRefB] }

def cycObjB : K8sObject :=
  { apiVersion := "example/v1", kind := "KindB", name := "obj-b",
    ns := "team-a", ownerReferences := [cycRefA] }

/-- A store whose controller-owner graph is the two-cycle obj-a ⇄ obj-b. -/
def cycStoreW : List K8sObject := [cycObjA, cycObjB]

lemma cyclic_out_of_fuel : ∀ fuel : Nat,
    (findFinalOwnerRef cycStoreW "team-a" (some cycRefA) fuel).1 =
      ResolveResult.outOfFuel ∧
    (findFinalOwnerRef cycStoreW "team-a" (some cycRefB) fuel).1 =
      ResolveResult.outOfFuel := by
  intro fuel
  induction fuel with
  | zero => constructor <;> simp [findFinalOwnerRef]
  | succ n ih =>
    constructor
    · have hf : fetch cycStoreW cycRefA.apiVersion cycRefA.kind
          { ns := "team-a", name := cycRefA.name } = some cycObjA := by decide
      have hc : getControllerOf cycObjA.ownerReferences = some cycRefB := by
        decide
      rw [findFinalOwnerRef_step_rec n hf hc]
      exact ih.2
    · have hf : fetch cycStoreW cycRefB.apiVersion cycRefB.kind
          { ns := "team-a", name := cycRefB.name } = some cycObjB := by decide
      have hc : getControllerOf cycObjB.ownerReferences = some cycRefA := by
        decide
      rw [findFinalOwnerRef_step_rec n hf hc]
      exact ih.1

/-- Claim C7: when the controller-owner graph reachable from the starting
reference is finite and acyclic — expressed as accessibility of the
reference under the ownership step relation — the resolution terminates:
some finite fuel yields a result other than fuel exhaustion. And, as the
spec stipulates, on a store containing an ownership cycle the resolver never
terminates: every fuel is exhausted. -/
theorem owner_resolution_termination (store : List K8sObject) (nsv : String)
    (r : OwnerReference)
    (hacc : Acc (fun a b => ownerStep store nsv b a) r) :
    (∃ fuel res tr,
      findFinalOwnerRef store nsv (some r) fuel = (res, tr) ∧
      res ≠ ResolveResult.outOfFuel) ∧
    (∀ fuel : Nat,
      (findFinalOwnerRef cycStoreW "team-a" (some cycRefA) fuel).1 =
        ResolveResult.outOfFuel) := by
  constructor
  · induction hacc with
    | intro x hx ih =>
      cases hf : fetch store x.apiVersion x.kind { ns := nsv, name := x.name } with
      | none =>
        exact ⟨1, _, _, findFinalOwnerRef_step_notFound 0 hf, by simp⟩
      | some obj =>
        cases hc : getControllerOf obj.ownerReferences with
        | none =>
          exact ⟨1, _, _, findFinalOwnerRef_step_done 0 hf hc, by simp⟩
        | some nr =>
          obtain ⟨fuel, res, tr, heq, hne⟩ := ih nr ⟨obj, hf, hc⟩
          refine ⟨fuel + 1, res, { ns := nsv, name := x.name } :: tr, ?_, hne⟩
          rw [findFinalOwnerRef_step_rec fuel hf hc, heq]
  · intro fuel
    exact (cyclic_out_of_fuel fuel).1

def wRefW : OwnerReference :=
  { apiVersion := "v1", kind := "Pod", name := "pod-2",
    controller := true, blockOwnerDeletion := true }

/-- Witness for claim C7: the acyclicity hypothesis discharged on a concrete
one-object store, whose single reachable object has no controller owner. -/
theorem owner_resolution_termination_witness :
    (∃ fuel res tr,
      findFinalOwnerRef store1W "team-a" (some wRefW) fuel = (res, tr) ∧
      res ≠ ResolveResult.outOfFuel) ∧
    (∀ fuel : Nat,
      (findFinalOwnerRef cycStoreW "team-a" (some cycRefA) fuel).1 =
        ResolveResult.outOfFuel) :=
  owner_resolution_termination store1W "team-a" wRefW (by
    refine Acc.intro _ ?_
    intro y hy
    simp only [ownerStep] at hy
    obtain ⟨obj, hf, hc⟩ := hy
    have hobj : fetch store1W wRefW.apiVersion wRefW.kind
        { ns := "team-a", name := wRefW.name } = some podAloneW := by decide
    rw [hobj] at hf
    injection hf with h
    rw [← h] at hc
    simp [getControllerOf, podAloneW] at hc)

end ShipwrightMetrics
